import Mathlib

/-
  Verification of the trio-monitor acquisition-and-alerting engine.

  Shallow embedding of the relevant backend modules:
    - config.py           (threshold settings, defaults)
    - models.py           (record types; Python floats are modelled as ℚ,
                           datetimes as Nat instants supplied by the caller)
    - api_client.py       (queue-status derivation, service-level computation,
                           fallback synthetic data; random.randint draws are
                           modelled as an input stream rng : Nat → Int consumed
                           in program order)
    - theme_service.py    (time-window matcher and theme selection; a
                           datetime.time is modelled as seconds since midnight)
    - scheduler_improved.py (poll cycle with retry and circuit breaker; the
                           upstream behaviour of one tick is an oracle
                           env : Nat → PollOutcome giving each attempt's result,
                           and a TickTrace records adapter invocations and the
                           sleeps performed between attempts)
-/

namespace TrioMonitor

/- config.py defaults -/
def queue_time_limit : Int := 20
def warning_threshold : Int := 18
def service_level_target : Int := 80

/- models.py -/

inductive QueueStatus where
  | good
  | warning
  | critical
  deriving DecidableEq, Repr

def QueueStatus.rank : QueueStatus → Nat
  | .good => 0
  | .warning => 1
  | .critical => 2

inductive AgentStatus where
  | available
  | busy
  | unavailable
  | onBreak
  | training
  deriving DecidableEq, Repr

structure AgentState where
  agent_id : String
  name : String
  status : AgentStatus
  current_call_duration : Option Int := none
  calls_handled_today : Int := 0
  average_call_time : Option ℚ := none
  last_updated : Nat
  deriving DecidableEq, Repr

structure QueueMetrics where
  queue_id : String
  queue_name : String
  current_wait_time : Int
  queue_depth : Int
  status : QueueStatus
  calls_waiting : Int
  longest_wait_time : Int
  average_wait_time : ℚ
  last_updated : Nat
  deriving DecidableEq, Repr

structure ServiceLevelMetrics where
  date : Nat
  total_calls : Nat
  calls_answered_within_target : Nat
  service_level_percentage : ℚ
  average_wait_time : ℚ
  total_queue_time : Int
  peak_wait_time : Int
  queue_time_limit_breached : Bool
  deriving DecidableEq, Repr

structure AlertData where
  alert_id : String
  type : String
  message : String
  severity : String
  timestamp : Nat
  acknowledged : Bool := false
  deriving DecidableEq, Repr

/- api_client.py: TrioAPIClient._determine_queue_status.
   `limit` is self.queue_time_limit (critical threshold) and `warn` is
   self.warning_threshold, both taken from settings at construction. -/
def determine_queue_status (limit warn : Int) (wait_time : Int) : QueueStatus :=
  if limit ≤ wait_time then QueueStatus.critical
  else if warn ≤ wait_time then QueueStatus.warning
  else QueueStatus.good

/- api_client.py: one case record from /services/cases; the code reads
   case.get("wait_time", 0), so the field is optional with default 0. -/
structure CaseRec where
  wait_time : Option Int := none
  deriving DecidableEq, Repr

def caseWait (c : CaseRec) : Int := c.wait_time.getD 0

/- api_client.py: TrioAPIClient.get_service_level_metrics, the computation on
   the parsed cases list (the success path; the fetch itself is external). -/
def get_service_level_metrics (limit : Int) (cases : List CaseRec) (now : Nat) :
    ServiceLevelMetrics :=
  let total_calls := cases.length
  let calls_within_target := cases.countP (fun c => decide (caseWait c ≤ limit))
  let service_level_percentage : ℚ :=
    if 0 < total_calls then (calls_within_target : ℚ) / (total_calls : ℚ) * 100 else 0
  let wait_times := cases.map caseWait
  let average_wait_time : ℚ :=
    if wait_times.isEmpty then 0 else (wait_times.sum : ℚ) / (wait_times.length : ℚ)
  let peak_wait_time : Int :=
    match wait_times with
    | [] => 0
    | h :: t => t.foldl max h
  let total_queue_time := wait_times.sum
  { date := now
    total_calls := total_calls
    calls_answered_within_target := calls_within_target
    service_level_percentage := service_level_percentage
    average_wait_time := average_wait_time
    total_queue_time := total_queue_time
    peak_wait_time := peak_wait_time
    queue_time_limit_breached := limit ≤ total_queue_time }

/- theme_service.py -/

inductive ThemeType where
  | light
  | dark
  deriving DecidableEq, Repr

structure ThemeScheduleRec where
  name : String
  theme_type : ThemeType
  start_time : Nat
  end_time : Nat
  weekdays : List Nat
  is_active : Bool := true
  deriving DecidableEq, Repr

/- theme_service.py: ThemeService._is_time_in_schedule -/
def is_time_in_schedule (t : Nat) (weekday : Nat) (s : ThemeScheduleRec) : Bool :=
  if weekday ∉ s.weekdays then false
  else if s.start_time ≤ s.end_time then
    decide (s.start_time ≤ t ∧ t ≤ s.end_time)
  else
    decide (s.start_time ≤ t ∨ t ≤ s.end_time)

structure ThemeServiceState where
  manual_override : Bool := false
  manual_theme : Option ThemeType := none
  deriving DecidableEq, Repr

/- theme_service.py: ThemeService.get_current_theme_by_time; the db query
   for active schedules is modelled as filtering the stored schedule list. -/
def get_current_theme_by_time (st : ThemeServiceState)
    (schedules : List ThemeScheduleRec) (t weekday : Nat) : ThemeType :=
  match st.manual_override, st.manual_theme with
  | true, some th => th
  | _, _ =>
    match (schedules.filter (fun s => s.is_active)).find?
        (fun s => is_time_in_schedule t weekday s) with
    | some s => s.theme_type
    | none => ThemeType.light

/- scheduler_improved.py: alert evaluation -/

/- Helper for the Python "{:.1f}" formatting of the percentage in the
   service-level alert message; rounds to one decimal (the exact tie-breaking
   of Python float formatting is immaterial to every claim below). -/
def fmt1 (q : ℚ) : String :=
  let n : Int := round (q * 10)
  toString (n / 10) ++ "." ++ toString (n % 10)

/- scheduler_improved.py: the per-queue body of the loop in
   ImprovedTrioScheduler._process_alerts; critW and warnW are the module
   constants CRITICAL_WAIT_TIME and WARNING_WAIT_TIME. -/
def queueAlert (critW warnW : Int) (now : Nat) (q : QueueMetrics) :
    Option AlertData :=
  if critW ≤ q.current_wait_time then
    some { alert_id := "queue_critical_" ++ q.queue_id ++ "_" ++ toString now
           type := "queue_critical"
           message := "KRITISK: " ++ q.queue_name ++ " har väntetid över "
             ++ toString critW ++ "s (" ++ toString q.current_wait_time ++ "s)"
           severity := "critical"
           timestamp := now }
  else if warnW ≤ q.current_wait_time then
    some { alert_id := "queue_warning_" ++ q.queue_id ++ "_" ++ toString now
           type := "queue_warning"
           message := "VARNING: " ++ q.queue_name ++ " närmar sig gränsen ("
             ++ toString q.current_wait_time ++ "s)"
           severity := "medium"
           timestamp := now }
  else none

/- scheduler_improved.py: ImprovedTrioScheduler._process_alerts, parametrized
   by the three module-level threshold constants. -/
def processAlertsWith (critW warnW slTarget : Int) (queues : List QueueMetrics)
    (service_level : ServiceLevelMetrics) (now : Nat) : List AlertData :=
  let queueAlerts := queues.filterMap (queueAlert critW warnW now)
  let slAlerts :=
    if service_level.service_level_percentage < (slTarget : ℚ) then
      [{ alert_id := "service_level_" ++ toString now
         type := "service_level"
         message := "Servicenivå under mål: "
           ++ fmt1 service_level.service_level_percentage
           ++ "% (mål: " ++ toString slTarget ++ "%)"
         severity := "high"
         timestamp := now }]
    else []
  let dlAlerts :=
    if service_level.queue_time_limit_breached then
      [{ alert_id := "daily_limit_" ++ toString now
         type := "daily_limit"
         message := "KRITISK: Daglig kötidsgräns överskriden ("
           ++ toString service_level.total_queue_time ++ "s av "
           ++ toString critW ++ "s)"
         severity := "critical"
         timestamp := now }]
    else []
  queueAlerts ++ slAlerts ++ dlAlerts

/- _process_alerts as called by the scheduler, with the settings constants. -/
def process_alerts (queues : List QueueMetrics)
    (service_level : ServiceLevelMetrics) (now : Nat) : List AlertData :=
  processAlertsWith queue_time_limit warning_threshold service_level_target
    queues service_level now

/- Two queue snapshots that agree on every field except the precomputed
   status field. -/
def eqExceptStatus (q r : QueueMetrics) : Prop :=
  q.queue_id = r.queue_id ∧ q.queue_name = r.queue_name ∧
  q.current_wait_time = r.current_wait_time ∧ q.queue_depth = r.queue_depth ∧
  q.calls_waiting = r.calls_waiting ∧
  q.longest_wait_time = r.longest_wait_time ∧
  q.average_wait_time = r.average_wait_time ∧ q.last_updated = r.last_updated

/- api_client.py: fallback behaviour of the adapter. The success payload is
   abstracted as the already-normalized records; random.randint draws in the
   mock queue metrics are the input stream rng, consumed in program order. -/

inductive Fetch (α : Type) where
  | ok (value : α)
  | fail

def mock_agent_states (now : Nat) : List AgentState :=
  [ { agent_id := "agent_001", name := "Anna Andersson",
      status := AgentStatus.available, calls_handled_today := 12,
      average_call_time := some (180.5 : ℚ), last_updated := now },
    { agent_id := "agent_002", name := "Erik Eriksson",
      status := AgentStatus.busy, current_call_duration := some 145,
      calls_handled_today := 8, average_call_time := some (220.3 : ℚ),
      last_updated := now },
    { agent_id := "agent_003", name := "Maria Johansson",
      status := AgentStatus.onBreak, calls_handled_today := 15,
      average_call_time := some (165.8 : ℚ), last_updated := now },
    { agent_id := "agent_004", name := "Lars Larsson",
      status := AgentStatus.available, calls_handled_today := 10,
      average_call_time := some (195.2 : ℚ), last_updated := now } ]

/- Python f"queue_{i+1:03d}" -/
def pad3 (n : Nat) : String :=
  if n < 10 then "00" ++ toString n
  else if n < 100 then "0" ++ toString n
  else toString n

def mock_queue_names : List String :=
  ["Kundservice", "Teknisk Support", "Försäljning", "Fakturering"]

/- One iteration of the loop in _get_mock_queue_metrics; the five randint
   draws of queue i occupy stream positions 5*i .. 5*i+4 in program order:
   wait time (randint 5 25), queue depth (randint 0 8), calls waiting
   (randint 0 5), longest-wait increment (randint 0 10), average-wait
   decrement (randint 0 5). -/
def mkMockQueue (rng : Nat → Int) (now : Nat) (i : Nat) (name : String) :
    QueueMetrics :=
  let wait_time := rng (5 * i)
  { queue_id := "queue_" ++ pad3 (i + 1)
    queue_name := name
    current_wait_time := wait_time
    queue_depth := rng (5 * i + 1)
    status := determine_queue_status queue_time_limit warning_threshold wait_time
    calls_waiting := rng (5 * i + 2)
    longest_wait_time := wait_time + rng (5 * i + 3)
    average_wait_time := ((wait_time - rng (5 * i + 4) : Int) : ℚ)
    last_updated := now }

def mock_queue_metrics (rng : Nat → Int) (now : Nat) : List QueueMetrics :=
  mock_queue_names.enum.map (fun p => mkMockQueue rng now p.1 p.2)

def mock_service_level (now : Nat) : ServiceLevelMetrics :=
  { date := now
    total_calls := 150
    calls_answered_within_target := 125
    service_level_percentage := (125 : ℚ) / 150 * 100
    average_wait_time := (16.5 : ℚ)
    total_queue_time := 18
    peak_wait_time := 28
    queue_time_limit_breached := false }

/- api_client.py: get_agent_states; any exception in the fetch falls back to
   the mock data instead of propagating. -/
def get_agent_states (f : Fetch (List AgentState)) (now : Nat) :
    List AgentState :=
  match f with
  | .ok agents => agents
  | .fail => mock_agent_states now

/- api_client.py: get_queue_metrics with its randomized fallback. -/
def get_queue_metrics (f : Fetch (List QueueMetrics)) (rng : Nat → Int)
    (now : Nat) : List QueueMetrics :=
  match f with
  | .ok queues => queues
  | .fail => mock_queue_metrics rng now

/- api_client.py: get_service_level_metrics fallback path. -/
def get_service_level (f : Fetch ServiceLevelMetrics) (now : Nat) :
    ServiceLevelMetrics :=
  match f with
  | .ok sl => sl
  | .fail => mock_service_level now

/- The random streams that real executions of _get_mock_queue_metrics can
   produce: every draw lies in its randint range. -/
def validMockRng (rng : Nat → Int) : Prop :=
  ∀ i, i < 4 →
    (5 ≤ rng (5 * i) ∧ rng (5 * i) ≤ 25) ∧
    (0 ≤ rng (5 * i + 1) ∧ rng (5 * i + 1) ≤ 8) ∧
    (0 ≤ rng (5 * i + 2) ∧ rng (5 * i + 2) ≤ 5) ∧
    (0 ≤ rng (5 * i + 3) ∧ rng (5 * i + 3) ≤ 10) ∧
    (0 ≤ rng (5 * i + 4) ∧ rng (5 * i + 4) ≤ 5)

def mockRngA : Nat → Int := fun _ => 5

def mockRngB : Nat → Int := fun n => if n = 0 then 6 else 5

/- scheduler_improved.py: module constants and the engine state. -/

def MAX_RETRIES : Nat := 3
def RETRY_DELAY : Nat := 2
def max_consecutive_failures : Nat := 5

structure DashboardBundle where
  agents : List AgentState
  queues : List QueueMetrics
  service_level : ServiceLevelMetrics
  alerts : List String
  last_updated : Nat
  deriving DecidableEq, Repr

/- The self.latest_data dict: empty at engine start; a successful cycle
   replaces it wholesale by the dashboard bundle (whose status key is
   "operational"); failure paths only overwrite the system_status key and,
   for a generic exception, the last_error key. -/
structure LatestData where
  bundle : Option DashboardBundle
  system_status : Option String
  last_error : Option String
  deriving DecidableEq, Repr

def LatestData.empty : LatestData :=
  { bundle := none, system_status := none, last_error := none }

/- Python dict truthiness: self.latest_data is falsy iff it has no key. -/
def LatestData.isEmpty (d : LatestData) : Bool :=
  d.bundle.isNone && d.system_status.isNone && d.last_error.isNone

structure EngineState where
  latest_data : LatestData
  alerts : List AlertData
  is_running : Bool
  consecutive_failures : Nat
  deriving DecidableEq, Repr

def initialEngineState : EngineState :=
  { latest_data := LatestData.empty, alerts := [], is_running := false,
    consecutive_failures := 0 }

/- Result of one _poll_data attempt: a successful fetch of the three
   resources, an asyncio.TimeoutError, or a generic exception. -/
inductive PollOutcome where
  | success (agents : List AgentState) (queues : List QueueMetrics)
      (sl : ServiceLevelMetrics)
  | timeout
  | error (msg : String)

def PollOutcome.isSuccess : PollOutcome → Bool
  | .success _ _ _ => true
  | _ => false

/- Observable effects of one tick: how many times _poll_data (and hence the
   metrics adapter) was invoked, and the sleeps between attempts. -/
structure TickTrace where
  adapterCalls : Nat
  sleeps : List Nat
  deriving DecidableEq, Repr

def TickTrace.empty : TickTrace := { adapterCalls := 0, sleeps := [] }

/- scheduler_improved.py: the success path of _poll_data followed by the
   counter reset in _poll_data_with_retry. -/
def applySuccess (s : EngineState) (agents : List AgentState)
    (queues : List QueueMetrics) (sl : ServiceLevelMetrics) (now : Nat) :
    EngineState :=
  let alerts := process_alerts queues sl now
  { s with
    latest_data :=
      { bundle := some
          { agents := agents, queues := queues, service_level := sl,
            alerts := alerts.map (fun a => a.message), last_updated := now }
        system_status := some "operational"
        last_error := none }
    alerts := alerts
    consecutive_failures := 0 }

/- scheduler_improved.py: the except-branch of _poll_data — a generic
   exception records an error status and message before re-raising, a
   timeout re-raises without touching latest_data. -/
def afterFailedAttempt (s : EngineState) : PollOutcome → EngineState
  | .error msg =>
      { s with latest_data :=
          { s.latest_data with system_status := some "error",
                               last_error := some msg } }
  | _ => s

/- scheduler_improved.py: the retry loop of _poll_data_with_retry plus the
   all-retries-failed epilogue; remaining counts the loop iterations left,
   attempt is the 0-based loop index. -/
def retryFrom (env : Nat → PollOutcome) (now : Nat) :
    Nat → Nat → EngineState → TickTrace → EngineState × TickTrace
  | 0, _, s, tr =>
      ({ s with
          consecutive_failures := s.consecutive_failures + 1
          latest_data :=
            { s.latest_data with system_status := some "degraded" } }, tr)
  | remaining + 1, attempt, s, tr =>
      let tr := { tr with adapterCalls := tr.adapterCalls + 1 }
      match env attempt with
      | .success agents queues sl =>
          (applySuccess s agents queues sl now, tr)
      | out =>
          let s := afterFailedAttempt s out
          let tr :=
            if attempt < MAX_RETRIES - 1 then
              { tr with sleeps := tr.sleeps ++ [RETRY_DELAY * (attempt + 1)] }
            else tr
          retryFrom env now remaining (attempt + 1) s tr

/- scheduler_improved.py: ImprovedTrioScheduler._poll_data_with_retry, one
   scheduled tick. -/
def pollDataWithRetry (env : Nat → PollOutcome) (now : Nat)
    (s : EngineState) : EngineState × TickTrace :=
  if max_consecutive_failures ≤ s.consecutive_failures then
    let s := { s with latest_data :=
        { s.latest_data with system_status := some "circuit_breaker_open" } }
    if s.consecutive_failures % 10 = 0 then
      retryFrom env now MAX_RETRIES 0 s TickTrace.empty
    else
      (s, TickTrace.empty)
  else
    retryFrom env now MAX_RETRIES 0 s TickTrace.empty

/- A sequence of ticks with the same per-attempt environment, returning the
   final state and the total number of adapter invocations. -/
def runTicks (env : Nat → PollOutcome) (now : Nat) :
    Nat → EngineState → EngineState × Nat
  | 0, s => (s, 0)
  | n + 1, s =>
      let r := pollDataWithRetry env now s
      let rest := runTicks env now n r.1
      (rest.1, r.2.adapterCalls + rest.2)

/- scheduler_improved.py: ImprovedTrioScheduler.get_latest_data. -/
def getLatestData (s : EngineState) : LatestData :=
  if s.latest_data.isEmpty then LatestData.empty else s.latest_data

structure SystemMetrics where
  is_running : Bool
  consecutive_failures : Nat
  circuit_breaker_status : String
  last_successful_poll : Option Nat
  system_status : String
  deriving DecidableEq, Repr

/- scheduler_improved.py: ImprovedTrioScheduler.get_system_metrics. -/
def getSystemMetrics (s : EngineState) : SystemMetrics :=
  { is_running := s.is_running
    consecutive_failures := s.consecutive_failures
    circuit_breaker_status :=
      if max_consecutive_failures ≤ s.consecutive_failures then "open"
      else "closed"
    last_successful_poll := s.latest_data.bundle.map (fun b => b.last_updated)
    system_status := s.latest_data.system_status.getD "unknown" }

/- An environment in which every attempt fails with a timeout. -/
def failEnv : Nat → PollOutcome := fun _ => PollOutcome.timeout

end TrioMonitor

namespace TrioMonitor

/-- Claim C2: the time-window matcher matches iff the weekday is in the
window's weekday set and, for a same-day window (start ≤ end), the time lies
inclusively between start and end, while for an overnight window (start > end)
the time is ≥ start or ≤ end; only the current day is weekday-tested. -/
theorem c2_time_window_match_iff (t weekday : Nat) (w : ThemeScheduleRec) :
    is_time_in_schedule t weekday w = true ↔
      weekday ∈ w.weekdays ∧
        ((w.start_time ≤ w.end_time ∧ w.start_time ≤ t ∧ t ≤ w.end_time) ∨
         (w.end_time < w.start_time ∧ (w.start_time ≤ t ∨ t ≤ w.end_time))) := by
  unfold is_time_in_schedule
  split
  · simp_all
  · split <;> simp_all

/-- Claim C3: queue status is critical iff the wait time reaches the critical
threshold, warning iff it is between the warning threshold (inclusive) and the
critical threshold (exclusive), good otherwise; and the status rank is
monotonically non-decreasing in the wait time. -/
theorem c3_queue_status_thresholds (limit warn w v : Int) (h : w ≤ v) :
    (determine_queue_status limit warn w = QueueStatus.critical ↔ limit ≤ w) ∧
    (determine_queue_status limit warn w = QueueStatus.warning ↔ warn ≤ w ∧ w < limit) ∧
    (determine_queue_status limit warn w = QueueStatus.good ↔ w < limit ∧ w < warn) ∧
    (determine_queue_status limit warn w).rank ≤ (determine_queue_status limit warn v).rank := by
  unfold determine_queue_status
  refine ⟨?_, ?_, ?_, ?_⟩
  · split <;> simp_all
    all_goals (split <;> simp_all)
  · split <;> simp_all
  · split <;> simp_all
  · by_cases h1 : limit ≤ v
    · rw [if_pos h1]
      cases hw : (if limit ≤ w then QueueStatus.critical
          else if warn ≤ w then QueueStatus.warning else QueueStatus.good) <;>
        simp [QueueStatus.rank]
    · have h2 : ¬ limit ≤ w := fun hw => h1 (le_trans hw h)
      rw [if_neg h2, if_neg h1]
      by_cases h3 : warn ≤ v
      · rw [if_pos h3]
        split <;> simp [QueueStatus.rank]
      · have h4 : ¬ warn ≤ w := fun hw => h3 (le_trans hw h)
        rw [if_neg h4, if_neg h3]

/-- Witness for C3 at concrete inputs. -/
theorem c3_queue_status_thresholds_witness :
    ((10 : Int) ≤ 19) ∧
    ((determine_queue_status 20 18 10 = QueueStatus.critical ↔ (20 : Int) ≤ 10) ∧
     (determine_queue_status 20 18 10 = QueueStatus.warning ↔ (18 : Int) ≤ 10 ∧ (10 : Int) < 20) ∧
     (determine_queue_status 20 18 10 = QueueStatus.good ↔ (10 : Int) < 20 ∧ (10 : Int) < 18) ∧
     (determine_queue_status 20 18 10).rank ≤ (determine_queue_status 20 18 19).rank) :=
  ⟨by decide, c3_queue_status_thresholds 20 18 10 19 (by decide)⟩

/-- Claim C4: the service-level percentage computed from a cases list is 0
when the total number of calls is 0 and 100 × within / total otherwise, where
within counts the cases whose wait time is within the configured target, and
within ≤ total always holds. -/
theorem c4_service_level_percentage (limit : Int) (cases : List CaseRec) (now : Nat) :
    (get_service_level_metrics limit cases now).total_calls = cases.length ∧
    (get_service_level_metrics limit cases now).calls_answered_within_target
      = cases.countP (fun c => decide (caseWait c ≤ limit)) ∧
    (get_service_level_metrics limit cases now).calls_answered_within_target
      ≤ (get_service_level_metrics limit cases now).total_calls ∧
    (get_service_level_metrics limit cases now).service_level_percentage
      = if cases.length = 0 then 0 else
          100 * ((get_service_level_metrics limit cases now).calls_answered_within_target : ℚ)
            / ((get_service_level_metrics limit cases now).total_calls : ℚ) := by
  unfold get_service_level_metrics
  refine ⟨rfl, rfl, List.countP_le_length _, ?_⟩
  by_cases hc : cases.length = 0
  · simp [hc]
  · have h0 : 0 < cases.length := Nat.pos_of_ne_zero hc
    simp only [h0, if_pos, hc, if_neg, not_false_iff]
    ring

/-- Claim C9: when manual override is disengaged and no active theme schedule
matches the current time-of-day and weekday, get_current_theme_by_time returns
the light theme as the default. -/
theorem c9_default_theme_light (st : ThemeServiceState)
    (schedules : List ThemeScheduleRec) (t weekday : Nat)
    (hov : st.manual_override = false)
    (hmatch : ∀ s ∈ schedules, s.is_active = true →
        is_time_in_schedule t weekday s = false) :
    get_current_theme_by_time st schedules t weekday = ThemeType.light := by
  obtain ⟨ov, mt⟩ := st
  simp only at hov
  subst hov
  have hfind : (schedules.filter (fun s => s.is_active)).find?
      (fun s => is_time_in_schedule t weekday s) = none := by
    rw [List.find?_eq_none]
    intro s hs
    rw [List.mem_filter] at hs
    have := hmatch s hs.1 hs.2
    simp [this]
  cases mt <;> simp [get_current_theme_by_time, hfind]

def c9SampleSchedule : ThemeScheduleRec :=
  { name := "Dagstema", theme_type := ThemeType.light, start_time := 21600,
    end_time := 64800, weekdays := [1, 2, 3, 4, 5, 6, 7], is_active := true }

/-- Witness for C9: a single active day schedule that does not cover 19:26:40
on a Monday, so the default light theme is returned. -/
theorem c9_default_theme_light_witness :
    (({ manual_override := false, manual_theme := none } :
        ThemeServiceState).manual_override = false) ∧
    (∀ s ∈ [c9SampleSchedule], s.is_active = true →
        is_time_in_schedule 70000 1 s = false) ∧
    get_current_theme_by_time { manual_override := false, manual_theme := none }
      [c9SampleSchedule] 70000 1 = ThemeType.light :=
  ⟨rfl, by decide,
    c9_default_theme_light _ [c9SampleSchedule] 70000 1 rfl (by decide)⟩

/-- Helper for C7: the per-queue alert decision reads only the identifier,
name and live wait time of a snapshot, never its status field. -/
theorem queueAlert_ignores_status (critW warnW : Int) (now : Nat)
    (q r : QueueMetrics) (h : eqExceptStatus q r) :
    queueAlert critW warnW now q = queueAlert critW warnW now r := by
  obtain ⟨h1, h2, h3, _⟩ := h
  unfold queueAlert
  rw [h1, h2, h3]

/-- Claim C7: for any two queue-snapshot lists that agree on every field
except the precomputed status field, with the same service-level summary and
thresholds, the alert evaluator produces the same alert list. -/
theorem c7_alerts_ignore_status (critW warnW slTarget : Int)
    (qs rs : List QueueMetrics) (sl : ServiceLevelMetrics) (now : Nat)
    (h : List.Forall₂ eqExceptStatus qs rs) :
    processAlertsWith critW warnW slTarget qs sl now
      = processAlertsWith critW warnW slTarget rs sl now := by
  unfold processAlertsWith
  have hq : qs.filterMap (queueAlert critW warnW now)
      = rs.filterMap (queueAlert critW warnW now) := by
    induction h with
    | nil => rfl
    | cons hab htail ih =>
        simp only [List.filterMap_cons,
          queueAlert_ignores_status critW warnW now _ _ hab, ih]
  simp only [hq]

def c7QueueA : QueueMetrics :=
  { queue_id := "q1", queue_name := "Kundservice", current_wait_time := 25,
    queue_depth := 3, status := QueueStatus.good, calls_waiting := 2,
    longest_wait_time := 30, average_wait_time := 12, last_updated := 0 }

def c7QueueB : QueueMetrics := { c7QueueA with status := QueueStatus.critical }

def c7ServiceLevel : ServiceLevelMetrics :=
  { date := 0, total_calls := 10, calls_answered_within_target := 7,
    service_level_percentage := 70, average_wait_time := 10,
    total_queue_time := 100, peak_wait_time := 25,
    queue_time_limit_breached := true }

/-- Witness for C7: two single-queue snapshot lists differing only in the
status field yield identical alert lists. -/
theorem c7_alerts_ignore_status_witness :
    List.Forall₂ eqExceptStatus [c7QueueA] [c7QueueB] ∧
    processAlertsWith 20 18 80 [c7QueueA] c7ServiceLevel 0
      = processAlertsWith 20 18 80 [c7QueueB] c7ServiceLevel 0 :=
  ⟨List.Forall₂.cons ⟨rfl, rfl, rfl, rfl, rfl, rfl, rfl, rfl⟩ List.Forall₂.nil,
   c7_alerts_ignore_status 20 18 80 [c7QueueA] [c7QueueB] c7ServiceLevel 0
     (List.Forall₂.cons ⟨rfl, rfl, rfl, rfl, rfl, rfl, rfl, rfl⟩
       List.Forall₂.nil)⟩

/-- Claim C8 counterexample: the queue-metrics fallback is randomized, not a
fixed dataset — two fallback invocations at the same instant, both drawing
values that random.randint can produce, return different data. -/
theorem c8_counterexample_random_fallback :
    validMockRng mockRngA ∧ validMockRng mockRngB ∧
    get_queue_metrics Fetch.fail mockRngA 0
      ≠ get_queue_metrics Fetch.fail mockRngB 0 :=
  ⟨by unfold validMockRng; decide, by unfold validMockRng; decide, by decide⟩

/-- Claim C8 (amended): on a fetch failure each resource returns its
synthetic fallback dataset instead of propagating the failure; the
agent-state and service-level fallbacks are fixed datasets (the same on every
fallback invocation at a given instant), while the queue-metrics fallback
depends on fresh random draws and so may differ between invocations. -/
theorem c8_fallback_returns_mock (rng : Nat → Int) (now : Nat) :
    get_agent_states Fetch.fail now = mock_agent_states now ∧
    get_service_level Fetch.fail now = mock_service_level now ∧
    get_queue_metrics Fetch.fail rng now = mock_queue_metrics rng now ∧
    (get_agent_states Fetch.fail now).length = 4 ∧
    (get_service_level Fetch.fail now).total_calls = 150 ∧
    (get_service_level Fetch.fail now).service_level_percentage
      = (125 : ℚ) / 150 * 100 :=
  ⟨rfl, rfl, rfl, rfl, rfl, rfl⟩

/-- Claim C10: get_system_metrics reports circuit_breaker_status "open" iff
the consecutive-failure counter is at least max_consecutive_failures (5), and
"closed" otherwise, in every engine state. -/
theorem c10_breaker_status_consistent (s : EngineState) :
    ((getSystemMetrics s).circuit_breaker_status = "open" ↔
      max_consecutive_failures ≤ s.consecutive_failures) ∧
    ((getSystemMetrics s).circuit_breaker_status = "closed" ↔
      s.consecutive_failures < max_consecutive_failures) := by
  unfold getSystemMetrics
  by_cases h : max_consecutive_failures ≤ s.consecutive_failures
  · rw [if_pos h]
    refine ⟨⟨fun _ => h, fun _ => rfl⟩, ?_, ?_⟩
    · intro hh
      simp at hh
    · intro hh
      exfalso
      omega
  · rw [if_neg h]
    refine ⟨⟨?_, fun hh => absurd hh h⟩, fun _ => by omega, fun _ => rfl⟩
    intro hh
    simp at hh

/-- Claim C1 (code bug): once the circuit breaker opens — five consecutive
failed cycles from the initial state freeze the counter at 5 — every one of
the next 10 ticks short-circuits with status "circuit_breaker_open" and the
adapter is invoked zero times in total; since short-circuited ticks never
change the counter and 5 % 10 ≠ 0, the every-10th-tick probe required by the
claim never happens. A bundle still equal to none records that no cycle ever
succeeded in this run. -/
theorem c1_circuit_breaker_never_probes :
    (runTicks failEnv 0 5 initialEngineState).1.consecutive_failures
        = max_consecutive_failures ∧
    (runTicks failEnv 0 10 (runTicks failEnv 0 5 initialEngineState).1).2
        = 0 ∧
    (runTicks failEnv 0 10
        (runTicks failEnv 0 5 initialEngineState).1).1.latest_data.system_status
      = some "circuit_breaker_open" ∧
    (runTicks failEnv 0 10
        (runTicks failEnv 0 5 initialEngineState).1).1.consecutive_failures
      = max_consecutive_failures ∧
    (runTicks failEnv 0 10
        (runTicks failEnv 0 5 initialEngineState).1).1.latest_data.bundle
      = none := by
  decide

/-- Claim C6 counterexample: after a single fully-failed cycle from the
initial state no cycle has ever succeeded (the bundle is still none), yet
get_latest_data returns a non-empty structure carrying system_status
"degraded" rather than the empty structure. -/
theorem c6_counterexample_failed_cycle_not_empty :
    (pollDataWithRetry failEnv 0 initialEngineState).1.latest_data.bundle
        = none ∧
    getLatestData (pollDataWithRetry failEnv 0 initialEngineState).1
        ≠ LatestData.empty ∧
    getLatestData (pollDataWithRetry failEnv 0 initialEngineState).1
      = { bundle := none, system_status := some "degraded",
          last_error := none } := by
  decide

/-- Claim C6 (amended): get_latest_data returns the empty structure iff the
engine's latest-data dict is empty — which holds at engine start but already
fails after a failed cycle — and otherwise returns the current dict; after a
successful cycle the dict is non-empty, holds the published bundle, and is
what get_latest_data returns. -/
theorem c6_get_latest_data_amended (s : EngineState)
    (agents : List AgentState) (queues : List QueueMetrics)
    (sl : ServiceLevelMetrics) (now : Nat) :
    (getLatestData s
      = if s.latest_data.isEmpty then LatestData.empty else s.latest_data) ∧
    (applySuccess s agents queues sl now).latest_data.isEmpty = false ∧
    ((applySuccess s agents queues sl now).latest_data.bundle).isSome
        = true ∧
    getLatestData (applySuccess s agents queues sl now)
      = (applySuccess s agents queues sl now).latest_data := by
  refine ⟨rfl, ?_, ?_, ?_⟩ <;>
    simp [applySuccess, getLatestData, LatestData.isEmpty]

/-- Helper for C5: running out of retries increments the failure counter and
publishes the degraded status. -/
theorem retryFrom_zero (env : Nat → PollOutcome) (now attempt : Nat)
    (s : EngineState) (tr : TickTrace) :
    retryFrom env now 0 attempt s tr
      = ({ s with
            consecutive_failures := s.consecutive_failures + 1
            latest_data :=
              { s.latest_data with system_status := some "degraded" } },
         tr) :=
  rfl

/-- Helper for C5: a successful attempt ends the loop after one more adapter
invocation. -/
theorem retryFrom_success (env : Nat → PollOutcome) (now rem attempt : Nat)
    (s : EngineState) (tr : TickTrace) (a : List AgentState)
    (q : List QueueMetrics) (sl : ServiceLevelMetrics)
    (he : env attempt = PollOutcome.success a q sl) :
    retryFrom env now (rem + 1) attempt s tr
      = (applySuccess s a q sl now,
         { tr with adapterCalls := tr.adapterCalls + 1 }) := by
  unfold retryFrom
  rw [he]

/-- Helper for C5: a failed attempt recurses with one more adapter invocation
and, except after the final attempt, an appended backoff sleep. -/
theorem retryFrom_failstep (env : Nat → PollOutcome) (now rem attempt : Nat)
    (s : EngineState) (tr : TickTrace)
    (hf : (env attempt).isSuccess = false) :
    retryFrom env now (rem + 1) attempt s tr
      = retryFrom env now rem (attempt + 1)
          (afterFailedAttempt s (env attempt))
          (if attempt < MAX_RETRIES - 1 then
            { adapterCalls := tr.adapterCalls + 1,
              sleeps := tr.sleeps ++ [RETRY_DELAY * (attempt + 1)] }
           else
            { adapterCalls := tr.adapterCalls + 1, sleeps := tr.sleeps }) := by
  rcases henv : env attempt with ⟨a, q, sl⟩ | _ | m
  · rw [henv] at hf
    simp [PollOutcome.isSuccess] at hf
  · simp only [retryFrom, henv]
  · simp only [retryFrom, henv]

/-- Helper for C5: a successful outcome is a success constructor. -/
theorem isSuccess_elim {o : PollOutcome} (h : o.isSuccess = true) :
    ∃ a q sl, o = PollOutcome.success a q sl := by
  cases o with
  | success a q sl => exact ⟨a, q, sl, rfl⟩
  | timeout => simp [PollOutcome.isSuccess] at h
  | error m => simp [PollOutcome.isSuccess] at h

/-- Helper for C5: recording a failed attempt never changes the
consecutive-failure counter. -/
theorem afterFailedAttempt_consecutive (s : EngineState) (o : PollOutcome) :
    (afterFailedAttempt s o).consecutive_failures = s.consecutive_failures := by
  cases o <;> rfl

/-- Claim C5: a poll cycle below the breaker threshold makes at most
MAX_RETRIES (3) adapter attempts, sleeping RETRY_DELAY × attempt-index
between consecutive attempts; if the first success is at 1-based attempt
k + 1, the consecutive-failure counter resets to 0 and exactly k + 1
attempts are made; if all attempts fail, the counter increments by exactly 1
and the published system status becomes "degraded". -/
theorem c5_retry_cycle (env : Nat → PollOutcome) (now : Nat)
    (s : EngineState)
    (h : s.consecutive_failures < max_consecutive_failures) :
    ((pollDataWithRetry env now s).2.adapterCalls ≤ MAX_RETRIES) ∧
    ((pollDataWithRetry env now s).2.sleeps
      = (List.range ((pollDataWithRetry env now s).2.adapterCalls - 1)).map
          (fun i => RETRY_DELAY * (i + 1))) ∧
    (∀ k, k < MAX_RETRIES → (env k).isSuccess = true →
        (∀ j, j < k → (env j).isSuccess = false) →
        (pollDataWithRetry env now s).1.consecutive_failures = 0 ∧
        (pollDataWithRetry env now s).2.adapterCalls = k + 1) ∧
    ((∀ k, k < MAX_RETRIES → (env k).isSuccess = false) →
        (pollDataWithRetry env now s).1.consecutive_failures
          = s.consecutive_failures + 1 ∧
        (pollDataWithRetry env now s).1.latest_data.system_status
          = some "degraded" ∧
        (pollDataWithRetry env now s).2.adapterCalls = MAX_RETRIES) := by
  have hb : ¬ max_consecutive_failures ≤ s.consecutive_failures := by omega
  unfold pollDataWithRetry
  rw [if_neg hb]
  by_cases hs0 : (env 0).isSuccess = true
  · obtain ⟨a, q, sl, he0⟩ := isSuccess_elim hs0
    have hrun : retryFrom env now MAX_RETRIES 0 s TickTrace.empty
        = (applySuccess s a q sl now,
           { adapterCalls := 1, sleeps := [] }) := by
      show retryFrom env now (2 + 1) 0 s TickTrace.empty = _
      rw [retryFrom_success env now 2 0 s TickTrace.empty a q sl he0]
      exact rfl
    rw [hrun]
    refine ⟨?_, ?_, ?_, ?_⟩
    · show (1 : Nat) ≤ MAX_RETRIES
      decide
    · show ([] : List Nat)
        = (List.range (1 - 1)).map (fun i => RETRY_DELAY * (i + 1))
      decide
    · intro k hk hks hmin
      rcases Nat.eq_zero_or_pos k with hk0 | hkpos
      · subst hk0
        exact ⟨rfl, rfl⟩
      · exact absurd (hmin 0 hkpos) (by simp [hs0])
    · intro hall
      exact absurd (hall 0 (by decide)) (by simp [hs0])
  · simp only [Bool.not_eq_true] at hs0
    have hstep0 : retryFrom env now MAX_RETRIES 0 s TickTrace.empty
        = retryFrom env now 2 1 (afterFailedAttempt s (env 0))
            { adapterCalls := 1, sleeps := [2] } := by
      show retryFrom env now (2 + 1) 0 s TickTrace.empty = _
      rw [retryFrom_failstep env now 2 0 s TickTrace.empty hs0]
      exact rfl
    by_cases hs1 : (env 1).isSuccess = true
    · obtain ⟨a, q, sl, he1⟩ := isSuccess_elim hs1
      have hrun : retryFrom env now MAX_RETRIES 0 s TickTrace.empty
          = (applySuccess (afterFailedAttempt s (env 0)) a q sl now,
             { adapterCalls := 2, sleeps := [2] }) := by
        rw [hstep0]
        show retryFrom env now (1 + 1) 1 (afterFailedAttempt s (env 0))
            { adapterCalls := 1, sleeps := [2] } = _
        rw [retryFrom_success env now 1 1 (afterFailedAttempt s (env 0))
          { adapterCalls := 1, sleeps := [2] } a q sl he1]
      rw [hrun]
      refine ⟨?_, ?_, ?_, ?_⟩
      · show (2 : Nat) ≤ MAX_RETRIES
        decide
      · show ([2] : List Nat)
          = (List.range (2 - 1)).map (fun i => RETRY_DELAY * (i + 1))
        decide
      · intro k hk hks hmin
        have hk3 : k < 3 := hk
        interval_cases k
        · exact absurd hks (by simp [hs0])
        · exact ⟨rfl, rfl⟩
        · exact absurd (hmin 1 (by decide)) (by simp [hs1])
      · intro hall
        exact absurd (hall 1 (by decide)) (by simp [hs1])
    · simp only [Bool.not_eq_true] at hs1
      have hstep1 : retryFrom env now 2 1 (afterFailedAttempt s (env 0))
            { adapterCalls := 1, sleeps := [2] }
          = retryFrom env now 1 2
              (afterFailedAttempt (afterFailedAttempt s (env 0)) (env 1))
              { adapterCalls := 2, sleeps := [2, 4] } := by
        show retryFrom env now (1 + 1) 1 (afterFailedAttempt s (env 0))
            { adapterCalls := 1, sleeps := [2] } = _
        rw [retryFrom_failstep env now 1 1 (afterFailedAttempt s (env 0))
          { adapterCalls := 1, sleeps := [2] } hs1]
        exact rfl
      by_cases hs2 : (env 2).isSuccess = true
      · obtain ⟨a, q, sl, he2⟩ := isSuccess_elim hs2
        have hrun : retryFrom env now MAX_RETRIES 0 s TickTrace.empty
            = (applySuccess
                (afterFailedAttempt (afterFailedAttempt s (env 0)) (env 1))
                a q sl now,
               { adapterCalls := 3, sleeps := [2, 4] }) := by
          rw [hstep0, hstep1]
          show retryFrom env now (0 + 1) 2
              (afterFailedAttempt (afterFailedAttempt s (env 0)) (env 1))
              { adapterCalls := 2, sleeps := [2, 4] } = _
          rw [retryFrom_success env now 0 2
            (afterFailedAttempt (afterFailedAttempt s (env 0)) (env 1))
            { adapterCalls := 2, sleeps := [2, 4] } a q sl he2]
        rw [hrun]
        refine ⟨?_, ?_, ?_, ?_⟩
        · show (3 : Nat) ≤ MAX_RETRIES
          decide
        · show ([2, 4] : List Nat)
            = (List.range (3 - 1)).map (fun i => RETRY_DELAY * (i + 1))
          decide
        · intro k hk hks hmin
          have hk3 : k < 3 := hk
          interval_cases k
          · exact absurd hks (by simp [hs0])
          · exact absurd hks (by simp [hs1])
          · exact ⟨rfl, rfl⟩
        · intro hall
          exact absurd (hall 2 (by decide)) (by simp [hs2])
      · simp only [Bool.not_eq_true] at hs2
        have hstep2 : retryFrom env now 1 2
              (afterFailedAttempt (afterFailedAttempt s (env 0)) (env 1))
              { adapterCalls := 2, sleeps := [2, 4] }
            = retryFrom env now 0 3
                (afterFailedAttempt
                  (afterFailedAttempt (afterFailedAttempt s (env 0)) (env 1))
                  (env 2))
                { adapterCalls := 3, sleeps := [2, 4] } := by
          show retryFrom env now (0 + 1) 2
              (afterFailedAttempt (afterFailedAttempt s (env 0)) (env 1))
              { adapterCalls := 2, sleeps := [2, 4] } = _
          rw [retryFrom_failstep env now 0 2
            (afterFailedAttempt (afterFailedAttempt s (env 0)) (env 1))
            { adapterCalls := 2, sleeps := [2, 4] } hs2]
          exact rfl
        have hrun : retryFrom env now MAX_RETRIES 0 s TickTrace.empty
            = ({ (afterFailedAttempt
                    (afterFailedAttempt (afterFailedAttempt s (env 0)) (env 1))
                    (env 2)) with
                  consecutive_failures :=
                    (afterFailedAttempt
                      (afterFailedAttempt (afterFailedAttempt s (env 0))
                        (env 1)) (env 2)).consecutive_failures + 1
                  latest_data :=
                    { (afterFailedAttempt
                        (afterFailedAttempt (afterFailedAttempt s (env 0))
                          (env 1)) (env 2)).latest_data with
                        system_status := some "degraded" } },
               { adapterCalls := 3, sleeps := [2, 4] }) := by
          rw [hstep0, hstep1, hstep2, retryFrom_zero]
        rw [hrun]
        refine ⟨?_, ?_, ?_, ?_⟩
        · show (3 : Nat) ≤ MAX_RETRIES
          decide
        · show ([2, 4] : List Nat)
            = (List.range (3 - 1)).map (fun i => RETRY_DELAY * (i + 1))
          decide
        · intro k hk hks hmin
          have hk3 : k < 3 := hk
          interval_cases k
          · exact absurd hks (by simp [hs0])
          · exact absurd hks (by simp [hs1])
          · exact absurd hks (by simp [hs2])
        · intro hall
          refine ⟨?_, rfl, rfl⟩
          simp [afterFailedAttempt_consecutive]

/-- Witness for C5 at a concrete always-failing environment and the initial
engine state. -/
theorem c5_retry_cycle_witness :
    initialEngineState.consecutive_failures < max_consecutive_failures ∧
    (((pollDataWithRetry failEnv 0 initialEngineState).2.adapterCalls
        ≤ MAX_RETRIES) ∧
     ((pollDataWithRetry failEnv 0 initialEngineState).2.sleeps
       = (List.range
           ((pollDataWithRetry failEnv 0 initialEngineState).2.adapterCalls
             - 1)).map (fun i => RETRY_DELAY * (i + 1))) ∧
     (∀ k, k < MAX_RETRIES → (failEnv k).isSuccess = true →
         (∀ j, j < k → (failEnv j).isSuccess = false) →
         (pollDataWithRetry failEnv 0
             initialEngineState).1.consecutive_failures = 0 ∧
         (pollDataWithRetry failEnv 0 initialEngineState).2.adapterCalls
           = k + 1) ∧
     ((∀ k, k < MAX_RETRIES → (failEnv k).isSuccess = false) →
         (pollDataWithRetry failEnv 0
             initialEngineState).1.consecutive_failures
           = initialEngineState.consecutive_failures + 1 ∧
         (pollDataWithRetry failEnv 0
             initialEngineState).1.latest_data.system_status
           = some "degraded" ∧
         (pollDataWithRetry failEnv 0 initialEngineState).2.adapterCalls
           = MAX_RETRIES)) :=
  ⟨by decide, c5_retry_cycle failEnv 0 initialEngineState (by decide)⟩

end TrioMonitor
